import Mathlib

/-!
Verification of `pycaching/geocaching.py` (class `Geocaching`): a shallow
embedding of the Transport Gateway (`_request`), the Session/Auth Controller
(`login`, `logout`, `get_logged_user`), the Search Pager (`search`,
`_search_get_page`) and the Quick-Search Tile Driver (`search_quick`).

Modelling conventions:
* Python exceptions become an explicit `Except PyError` result.
* The HTTP world (what `requests` and the website would return) is a parameter
  of each operation, so every definition is a pure, executable function.
* A parsed document (`bs4.BeautifulSoup` / `bs4.Tag`) is abstracted to the
  record of the query results the source performs on it (`Soup`).
  A `bs4.Tag` with no children is falsy in Python (`Tag.__len__` is the number
  of children), so "empty/absent page" is modelled as `Option.none` while a
  truthy page carries the list of its `<tr>` rows (possibly empty: a non-empty
  fragment need not contain any row).
* `raise StopIteration()` inside the `search` generator ends the iteration
  (the generator protocol this code was written against, before PEP 479
  enforcement): it is modelled as a normal, error-free end of the stream.
* External collaborators that are not part of this file
  (`pycaching.cache.Cache`, `Type`/`Size.from_string`, `parse_date`,
  `pycaching.geo`) are modelled from the spec at the granularity the claims
  need; their fallibility is kept (an `Option` that is `none` when the
  collaborator would raise).
-/

/-- Python exceptions that the embedded code can raise.
`error` is `pycaching.errors.Error` (raised as
`Error("Cannot load page: {url}")` in `_request`); `notLoggedIn` is
`NotLoggedInException`; `loginFailed` is `LoginFailedException`;
the last three are builtin Python exceptions escaping from parsing code. -/
inductive PyError where
  | error (msg : String)
  | notLoggedIn (msg : String)
  | loginFailed (msg : String)
  | attributeError
  | indexError
  | valueError
  deriving DecidableEq, Repr

/-- One form field of the login page: an `<input>` element with its
`name` and `value` attributes. -/
structure FormField where
  name : String
  value : String
  deriving DecidableEq, Repr

/-- One `<tr>` row of a search-result page, abstracted to the query results
the pager reads from it.  The five detail columns are `Option`s: `none`
models any failure of the corresponding `row.find(...)`/conversion
(`AttributeError` on a missing element, `ValueError` on a bad text), which
the source does not catch. -/
structure Row where
  /-- text of `span.cache-details` (split on `|` by the pager). -/
  cacheDetails : String
  /-- text of `span.cache-name`. -/
  name : String
  /-- whether an `img[title="Found It!"]` is present. -/
  foundImg : Bool
  /-- parsed `int` of the `FavoritePoint` column text. -/
  favorites : Int
  /-- truthiness of `row.get("class") and "disabled" in row.get("class")`. -/
  disabled : Bool
  /-- whether a `td.pm-upsell` is present. -/
  pmUpsell : Bool
  /-- `ContainerSize` column: successful `Size.from_string` outcome. -/
  sizeData : Option String
  /-- `Difficulty` column: successful `float(...)` outcome. -/
  difficultyData : Option ℚ
  /-- `Terrain` column: successful `float(...)` outcome. -/
  terrainData : Option ℚ
  /-- `PlaceDate` column: successful `parse_date` outcome. -/
  hiddenData : Option String
  /-- text of `span.owner` (the pager strips the first 3 characters). -/
  ownerText : Option String
  deriving DecidableEq, Repr

/-- A parsed document, abstracted to the record of the query results that
`geocaching.py` performs on documents. -/
structure Soup where
  /-- `page.find("div", "LoggedIn").find("strong").text`; `none` when the
  chain raises `AttributeError` (no logged-in marker). -/
  loggedUser : Option String
  /-- `res.find(id="geocaches")` combined with the truthiness test
  `not page`: `none` when the container is absent or childless (falsy),
  otherwise the list of its `<tr>` rows. -/
  geocaches : Option (List Row)
  /-- the document itself viewed as an AJAX result fragment (same
  truthiness convention as `geocaches`). -/
  asPage : Option (List Row)
  /-- names of `input[type in {text,password,checkbox}]`, document order. -/
  textPwChkFields : List String
  /-- `input[type in {hidden,submit}]` elements with their values. -/
  hiddenSubmitFields : List FormField
  deriving DecidableEq, Repr

/-- A decoded JSON body; the only JSON the source consumes is the AJAX
search continuation, read as `res["HtmlString"]` and re-parsed with
`bs4.BeautifulSoup`, abstracted here to the resulting document. -/
structure Json where
  htmlSoup : Soup
  deriving DecidableEq, Repr

/-- A successful `requests.Response`, abstracted to its decodings:
`soupDoc` is `bs4.BeautifulSoup(res.text, "html.parser")` (that parser is
total, it never raises on any input text); `jsonVal` is the result of
`res.json()`, `none` when it raises `requests.exceptions.JSONDecodeError`. -/
structure Response where
  soupDoc : Soup
  jsonVal : Option Json
  deriving DecidableEq, Repr

/-- The `requests.exceptions.RequestException` family, as raised by
`Session.request` / `Response.raise_for_status` / `Response.json`
(per the requests library every failure of those calls is in this family:
connection errors, timeouts, `HTTPError` from a non-2xx status,
redirect loops, and JSON decode errors). -/
inductive RequestExn where
  | connectionError
  | timeout
  | httpError (status : Nat)
  | tooManyRedirects
  deriving DecidableEq, Repr

/-- Outcome of one HTTP exchange: either a response (already known to have a
2xx status, i.e. `raise_for_status` passes) or a raised member of the
`RequestException` family. -/
inductive TransportResult where
  | ok (res : Response)
  | exn (e : RequestExn)
  deriving DecidableEq, Repr

/-- What `_request` returns: a parsed document, a JSON value, the raw
response, or Python's implicit `None` (when `expect` matches no branch). -/
inductive ReqReturn where
  | soup (d : Soup)
  | json (j : Json)
  | raw (r : Response)
  | noneVal
  deriving DecidableEq, Repr

/-- `Geocaching._baseurl`. -/
def baseurl : String := "https://www.geocaching.com"

/-- `Geocaching._urls["login_page"]`. -/
def login_page_url : String := "login/default.aspx"

/-- `Geocaching._urls["search"]`. -/
def search_url : String := "play/search"

/-- `Geocaching._urls["search_more"]`. -/
def search_more_url : String := "play/search/more-results"

/-- `"//" in url` (Python substring containment). -/
def containsDoubleSlash (url : String) : Bool :=
  (url.splitOn "//").length > 1

/-- `url if "//" in url else urljoin(self._baseurl, url)`; `urljoin` of the
fixed absolute base and a relative path appends the path to the origin. -/
def resolveUrl (url : String) : String :=
  if containsDoubleSlash url then url else baseurl ++ "/" ++ url

/-- `Geocaching._request`.  `logged_in` is `self._logged_in`, `transport` is
the outcome the HTTP layer produces for this exchange.  Returns the result
(or raised exception) together with the number of network calls performed
(0 or 1). -/
def request (logged_in : Bool) (transport : TransportResult) (url : String)
    (expect : String := "soup") (login_check : Bool := true) :
    Except PyError ReqReturn × Nat :=
  -- check login unless explicitly turned off
  if login_check && logged_in = false then
    (.error (.notLoggedIn "Login is needed."), 0)
  else
    let u := resolveUrl url
    match transport with
    | .exn _ =>
        -- except requests.exceptions.RequestException as e:
        --     raise Error("Cannot load page: {}".format(url)) from e
        (.error (.error ("Cannot load page: " ++ u)), 1)
    | .ok res =>
        if expect = "soup" then
          (.ok (.soup res.soupDoc), 1)
        else if expect = "json" then
          match res.jsonVal with
          | some j => (.ok (.json j), 1)
          -- res.json() raising JSONDecodeError is caught by the same
          -- RequestException handler (JSONDecodeError is in the family)
          | none => (.error (.error ("Cannot load page: " ++ u)), 1)
        else if expect = "raw" then
          (.ok (.raw res), 1)
        else
          -- no branch matches: the function falls through, returning None
          (.ok .noneVal, 1)

/-- The mutable state of a `Geocaching` instance: `self._logged_in`, and the
transport session `self._session` abstracted to a generation counter
(incremented each time the session object is replaced by a fresh
`requests.Session()`, so "discarded and replaced" is observable). -/
structure GState where
  logged_in : Bool
  session : Nat
  deriving DecidableEq, Repr

/-- `Geocaching.__init__`: logged out, first session object. -/
def initState : GState := { logged_in := false, session := 0 }

/-- `Geocaching.logout`: unconditionally clear the flag and replace the
session with a fresh one. -/
def logout (st : GState) : GState :=
  { logged_in := false, session := st.session + 1 }

/-- `Geocaching.get_logged_user` on an already loaded page:
`login_page.find("div", "LoggedIn").find("strong").text`, with the
`AttributeError` of a missing marker caught and turned into `None`;
abstracted to the corresponding query result of the document. -/
def get_logged_user (login_page : Soup) : Option String :=
  login_page.loggedUser

/-- Failures of `Geocaching._load_credentials` (the credential store reads
the file system, which is outside this embedding; the login flow only
depends on which exception class it raises). -/
inductive LoadErr where
  | fileNotFound
  | valueError
  | keyError
  | ioError
  deriving DecidableEq, Repr

/-- The `LoginFailedException` message `login` uses for each credential
loading failure. -/
def credErrMsg : LoadErr → String
  | .fileNotFound => "Credentials file not found and no username and password is given."
  | .valueError => "Wrong format of credentials file."
  | .keyError => "Credentials file doesn't contain username and password."
  | .ioError => "Credentials file reading error."

/-- Observable actions `login` performs, in order: HTTP GETs, HTTP POSTs
(with the assembled form body), and internal `self.logout()` calls. -/
inductive LoginAction where
  | httpGet (url : String)
  | httpPost (url : String) (body : List (String × String))
  | logoutAct
  deriving DecidableEq, Repr

/-- The external world a `login` call runs against: the credential store
outcome, and the transport outcomes of the login-page GET and of the
login-form POST. -/
structure LoginWorld where
  credentials : Except LoadErr (String × String)
  getTransport : TransportResult
  postTransport : TransportResult
  deriving Repr

/-- POST body assembly of `login`: zip the text/password/checkbox input
names (document order) with `[username, password, 1]`, then add every
hidden/submit input with its own declared value (later entries of the
Python dict update override earlier ones with the same name). -/
def assemblePost (login_page : Soup) (username password : String) :
    List (String × String) :=
  (login_page.textPwChkFields.zip [username, password, "1"]) ++
    (login_page.hiddenSubmitFields.map fun f => (f.name, f.value))

/-- Second half of `login` (from "continue logging in"): assemble the POST
body, submit it, re-check the logged identity on the response page; on
success set the flag, otherwise `self.logout()` and raise
`LoginFailedException`. -/
def loginPost (st : GState) (w : LoginWorld) (login_page : Soup)
    (username password : String) (tr : List LoginAction) :
    GState × List LoginAction × Except PyError Unit :=
  let post := assemblePost login_page username password
  let tr := tr ++ [LoginAction.httpPost login_page_url post]
  match request st.logged_in w.postTransport login_page_url "soup" false with
  | (.error e, _) => (st, tr, .error e)
  | (.ok (.soup after_login_page), _) =>
      match get_logged_user after_login_page with
      | some _ => ({ st with logged_in := true }, tr, .ok ())
      | none =>
          (logout st, tr ++ [LoginAction.logoutAct],
            .error (.loginFailed
              "Cannot login to the site (probably wrong username or password)."))
  | (.ok _, _) =>
      -- unreachable: expect="soup" only produces a document; a non-document
      -- would fail the page queries with AttributeError
      (st, tr, .error .attributeError)

/-- `Geocaching.login` after credentials are resolved: fetch the login page
(auth gate bypassed), check for a previous login (same user: done;
different user: `self.logout()` first), then run the POST half. -/
def loginCore (st : GState) (w : LoginWorld) (username password : String) :
    GState × List LoginAction × Except PyError Unit :=
  let tr0 := [LoginAction.httpGet login_page_url]
  match request st.logged_in w.getTransport login_page_url "soup" false with
  | (.error e, _) => (st, tr0, .error e)
  | (.ok (.soup login_page), _) =>
      match get_logged_user login_page with
      | some logged =>
          if logged = username then
            ({ st with logged_in := true }, tr0, .ok ())
          else
            loginPost (logout st) w login_page username password
              (tr0 ++ [LoginAction.logoutAct])
      | none => loginPost st w login_page username password tr0
  | (.ok _, _) =>
      -- unreachable, as in loginPost
      (st, tr0, .error .attributeError)

/-- `Geocaching.login`: resolve credentials from the store when either is
missing (Python truthiness: the empty string is falsy), mapping every
loading failure to `LoginFailedException`, then run the main flow. -/
def login (st : GState) (w : LoginWorld) (username password : String) :
    GState × List LoginAction × Except PyError Unit :=
  if username = "" || password = "" then
    match w.credentials with
    | .error e => (st, [], .error (.loginFailed (credErrMsg e)))
    | .ok (u, p) => loginCore st w u p
  else
    loginCore st w username password

/-- Python `str.split(sep)` for a one-character separator, on a character
list: `"a|b|c" → ["a","b","c"]`, no separator → one segment. -/
def splitOnCharList (c : Char) : List Char → List (List Char)
  | [] => [[]]
  | x :: xs =>
      match splitOnCharList c xs, decide (x = c) with
      | r, true => [] :: r
      | [], false => [[x]]
      | y :: ys, false => (x :: y) :: ys

/-- Python `str.split(sep)` for a one-character separator. -/
def pySplit (s : String) (sep : Char) : List String :=
  (splitOnCharList sep s.toList).map fun l => String.mk l

/-- Python `str.strip()`: drop leading and trailing whitespace. -/
def pyStrip (s : String) : String :=
  String.mk
    (((s.toList.dropWhile fun c => c.isWhitespace).reverse.dropWhile
      fun c => c.isWhitespace).reverse)

/-- Python `s[3:]` (used to delete the `"by "` prefix of the owner text). -/
def pyDrop3 (s : String) : String :=
  String.mk (s.toList.drop 3)

/-- Modelled from the spec: `pycaching.cache.Type.from_string` (the cache
module is an external Entity Parser, not part of this file).  The spec
keeps only that the first `|`-segment of the details text "is the entity
type label", so the type is modelled as that label. -/
def typeFromString (s : String) : String := s

/-- The entity the Search Pager and Quick-Search Driver construct
(`pycaching.cache.Cache`, external).  A field is `none` until the pager
assigns it; the pager fills exactly the fields the source assigns. -/
structure Cache where
  wp : String
  type : Option String := none
  name : Option String := none
  found : Option Bool := none
  favorites : Option Int := none
  state : Option Bool := none
  pm_only : Option Bool := none
  size : Option String := none
  difficulty : Option ℚ := none
  terrain : Option ℚ := none
  hidden : Option String := none
  author : Option String := none
  location : Option (Int × Int) := none
  deriving DecidableEq, Repr

/-- Read a detail column of a row; `none` means the corresponding
`row.find(...)`/conversion raises, which the pager does not catch. -/
def readField {α : Type} : Option α → Except PyError α
  | some v => .ok v
  | none => .error .attributeError

/-- The body of the `for` loop of `Geocaching.search` for one row: split the
details text on `|` (waypoint = segment 1 stripped, type = segment 0
stripped), fill the common fields, and either yield the PM-only entity
immediately or also parse the five detail columns. -/
def parseRow (row : Row) : Except PyError Cache := do
  let cache_details := pySplit row.cacheDetails '|'
  let wp ← match cache_details[1]? with
    | some s => Except.ok (pyStrip s)
    | none => Except.error PyError.indexError
  let ty ← match cache_details[0]? with
    | some s => Except.ok (pyStrip s)
    | none => Except.error PyError.indexError
  let c : Cache :=
    { wp := wp
      type := some (typeFromString ty)
      name := some row.name
      found := some row.foundImg
      favorites := some row.favorites
      state := some (!row.disabled)
      pm_only := some row.pmUpsell }
  if row.pmUpsell then
    -- PM only caches doesn't have other attributes filled in
    return c
  else
    let size ← readField row.sizeData
    let difficulty ← readField row.difficultyData
    let terrain ← readField row.terrainData
    let hidden ← readField row.hiddenData
    let owner ← readField row.ownerText
    return { c with
      size := some size
      difficulty := some difficulty
      terrain := some terrain
      hidden := some hidden
      author := some (pyDrop3 owner) }

/-- The `limit` parameter of `search`: the default `float("inf")`, or a
number.  `inf - 1 = inf` and `inf < 0` is false, so the default never
terminates the loop. -/
inductive Limit where
  | inf
  | fin (n : Int)
  deriving DecidableEq, Repr

/-- `limit -= 1`. -/
def Limit.dec : Limit → Limit
  | .inf => .inf
  | .fin n => .fin (n - 1)

/-- `limit < 0`. -/
def Limit.isNeg : Limit → Bool
  | .inf => false
  | .fin n => decide (n < 0)

/-- Outcome of iterating the rows of one fetched page. -/
inductive RowStep where
  | cont (cs : List Cache) (lim : Limit)
  | stop (cs : List Cache)
  | fail (cs : List Cache) (e : PyError)
  deriving DecidableEq, Repr

/-- The row loop of `search` over one page: for each row first decrement
the limit and terminate the whole sequence if it went negative
(`raise StopIteration()`, before the row is parsed), otherwise parse and
yield the row's entity; a parse exception escapes the generator with the
entities already yielded standing. -/
def processRows : List Row → Limit → RowStep
  | [], lim => .cont [] lim
  | row :: rest, lim =>
      let lim' := lim.dec
      if lim'.isNeg then
        .stop []
      else
        match parseRow row with
        | .error e => .fail [] e
        | .ok c =>
            match processRows rest lim' with
            | .cont cs l => .cont (c :: cs) l
            | .stop cs => .stop (c :: cs)
            | .fail cs e => .fail (c :: cs) e

/-- The external world of one `search` call: the transport outcome of the
page request issued for each `start_index` (the fixed origin point and the
other query parameters are folded into this indexing). -/
structure SearchWorld where
  transport : Nat → TransportResult

/-- `Geocaching._search_get_page`: `start_index = 0` uses the normal search
endpoint and extracts `res.find(id="geocaches")`; any other index uses the
AJAX endpoint with `expect="json"` and re-parses the `HtmlString` payload.
Both go through `_request` with its default `login_check=True`.
Returns the page (with the `not page` truthiness convention of `Soup`)
and the number of network calls made. -/
def _search_get_page (logged_in : Bool) (w : SearchWorld) (start_index : Nat) :
    Except PyError (Option (List Row)) × Nat :=
  if start_index = 0 then
    match request logged_in (w.transport 0) search_url "soup" true with
    | (.error e, n) => (.error e, n)
    | (.ok (.soup res), n) => (.ok res.geocaches, n)
    | (.ok _, n) => (.error .attributeError, n)
  else
    match request logged_in (w.transport start_index) search_more_url "json" true with
    | (.error e, n) => (.error e, n)
    | (.ok (.json j), n) => (.ok j.htmlSoup.asPage, n)
    | (.ok _, n) => (.error .attributeError, n)

/-- How one run of the `search` generator ended: natural end of the stream
(`raise StopIteration()` on an empty page or an exhausted limit), an
escaped exception, or the page-fetch fuel of the model ran out (the source
has an unbounded `while True`). -/
inductive SearchStatus where
  | done
  | errored (e : PyError)
  | fuelOut
  deriving DecidableEq, Repr

/-- Everything observable about one run of the `search` generator:
the entities yielded in order, the number of network calls made, and how
the stream ended. -/
structure SearchResult where
  caches : List Cache
  fetches : Nat
  status : SearchStatus
  deriving DecidableEq, Repr

/-- The `while True` loop of `Geocaching.search`, with fuel bounding the
number of page fetches of this model run.  After a page's rows are
consumed, `start_index` advances past the last row index processed
(`enumerate(..., start_index)` then `start_index += 1`: by the row count,
or by 1 when the page had no rows). -/
def searchLoop (logged_in : Bool) (w : SearchWorld) (limit : Limit)
    (start : Nat) : Nat → SearchResult
  | 0 => ⟨[], 0, .fuelOut⟩
  | fuel + 1 =>
      match _search_get_page logged_in w start with
      | (.error e, n) => ⟨[], n, .errored e⟩
      | (.ok none, n) =>
          -- result is empty - no more caches
          ⟨[], n, .done⟩
      | (.ok (some rows), n) =>
          match processRows rows limit with
          | .stop cs => ⟨cs, n, .done⟩
          | .fail cs e => ⟨cs, n, .errored e⟩
          | .cont cs lim' =>
              let next := if rows.length = 0 then start + 1 else start + rows.length
              let rest := searchLoop logged_in w lim' next fuel
              ⟨cs ++ rest.caches, n + rest.fetches, rest.status⟩

/-- `Geocaching.search`: run the pager from `start_index = 0`. -/
def search (logged_in : Bool) (w : SearchWorld) (limit : Limit)
    (fuel : Nat) : SearchResult :=
  searchLoop logged_in w limit 0 fuel

/-- A search world in which every page request succeeds at the transport
level and the document fetched for `start_index = i` carries `pages i`
(both as the `geocaches` container and as an AJAX fragment). -/
def worldOfPages (pages : Nat → Option (List Row)) : SearchWorld :=
  ⟨fun i => .ok
    { soupDoc :=
        { loggedUser := none
          geocaches := pages i
          asPage := pages i
          textPwChkFields := []
          hiddenSubmitFields := [] }
      jsonVal := some ⟨{ loggedUser := none
                         geocaches := pages i
                         asPage := pages i
                         textPwChkFields := []
                         hiddenSubmitFields := [] }⟩ }⟩

/-- One entity's compact representation inside a tile's payload
(`Block`, from `pycaching.geo`, external collaborator).  Its location is
an abstract coordinate pair. -/
structure Block where
  wp : String
  location : Int × Int
  deriving DecidableEq, Repr

/-- One map tile: the ordered blocks it exposes (`tile.blocks`). -/
structure Tile where
  blocks : List Block
  deriving DecidableEq, Repr

/-- The requested geographic area, abstracted to its membership test
(`cache.location not in area` negates it; `Area.__contains__` lives in
`pycaching.geo`, external collaborator). -/
structure Area where
  contains : Int × Int → Bool

/-- Modelled from the spec: `pycaching.cache.Cache.from_block` (external
Entity Parser, not part of this file) — "for each block the tile
collaborator exposes, construct an entity from that block". -/
def cacheFromBlock (b : Block) : Cache :=
  { wp := b.wp, location := some b.location }

/-- `cache.location not in area` for an entity built by the driver. -/
def locationNotInArea (area : Area) (c : Cache) : Bool :=
  match c.location with
  | some loc => !area.contains loc
  | none => true

/-- `Geocaching.search_quick` after the external `area.to_tiles`
collaborator produced the tile list: for every tile, for every block,
construct the entity; in strict mode skip entities whose location is not
in the area, otherwise yield every one. -/
def search_quick (area : Area) (strict : Bool) (tiles : List Tile) :
    List Cache :=
  tiles.flatMap fun tile =>
    tile.blocks.filterMap fun block =>
      let cache := cacheFromBlock block
      if strict && locationNotInArea area cache then
        -- if strict mode is on and cache is not in area
        none
      else
        -- can yield more caches (which are not exactly in desired area)
        some cache

/-- A document with no logged-in marker, no result container, no form
fields: used for concrete worlds. -/
def emptySoup : Soup :=
  { loggedUser := none
    geocaches := none
    asPage := none
    textPwChkFields := []
    hiddenSubmitFields := [] }

/-- C3: an operation invoked with the auth gate enabled (`login_check`
defaulting to true) while logged out fails with `NotLoggedInException`
with zero network calls; in particular `search` while logged out fails
that way before any request is issued. -/
theorem auth_gate_fails_before_network :
    (∀ (transport : TransportResult) (url expect : String),
      request false transport url expect true
        = (.error (.notLoggedIn "Login is needed."), 0))
    ∧ (∀ (w : SearchWorld) (lim : Limit) (fuel : Nat),
      search false w lim (fuel + 1)
        = ⟨[], 0, .errored (.notLoggedIn "Login is needed.")⟩) := by
  constructor
  · intro transport url expect
    simp [request]
  · intro w lim fuel
    simp [search, searchLoop, _search_get_page, request]

/-- C4: every transport-level failure (any member of the
`RequestException` family: connection, timeout, non-2xx status, ...) and
every JSON decoding failure of a request whose auth gate passes is
re-raised as the single `Error` class carrying the target URL, whatever
the underlying exception was. -/
theorem transport_failures_become_error :
    (∀ (e : RequestExn) (url expect : String) (lg lc : Bool),
      (lc = false ∨ lg = true) →
      request lg (.exn e) url expect lc
        = (.error (.error ("Cannot load page: " ++ resolveUrl url)), 1))
    ∧ (∀ (res : Response) (url : String) (lg lc : Bool),
      (lc = false ∨ lg = true) → res.jsonVal = none →
      request lg (.ok res) url "json" lc
        = (.error (.error ("Cannot load page: " ++ resolveUrl url)), 1)) := by
  constructor
  · intro e url expect lg lc hgate
    rcases hgate with h | h <;> subst h <;> simp [request]
  · intro res url lg lc hgate hjson
    rcases hgate with h | h <;> subst h <;> simp [request, hjson]

/-- Witness for C4: a timeout on the search endpoint and a JSON decode
failure on the AJAX endpoint both surface as the same `Error` naming the
resolved URL. -/
theorem transport_failures_become_error_witness :
    request true (.exn .timeout) "play/search" "soup" true
      = (.error (.error ("Cannot load page: " ++ resolveUrl "play/search")), 1)
    ∧ request true (.ok ⟨emptySoup, none⟩) "play/search/more-results" "json" true
      = (.error (.error ("Cannot load page: "
          ++ resolveUrl "play/search/more-results")), 1) :=
  ⟨transport_failures_become_error.1 .timeout "play/search" "soup" true true
      (Or.inr rfl),
    transport_failures_become_error.2 ⟨emptySoup, none⟩ "play/search/more-results"
      true true (Or.inr rfl) rfl⟩

/-- C10: a successful request whose `expect` is none of `"soup"`,
`"json"`, `"raw"` silently returns Python's `None` (no exception, no
decoded result). -/
theorem request_unknown_expect_returns_none :
    ∀ (res : Response) (url expect : String) (lg lc : Bool),
      (lc = false ∨ lg = true) →
      expect ≠ "soup" → expect ≠ "json" → expect ≠ "raw" →
      request lg (.ok res) url expect lc = (.ok .noneVal, 1) := by
  intro res url expect lg lc hgate h1 h2 h3
  rcases hgate with h | h <;> subst h <;> simp [request, h1, h2, h3]

/-- Witness for C10: `expect = "xml"` on a successful call returns `None`. -/
theorem request_unknown_expect_returns_none_witness :
    request true (.ok ⟨emptySoup, none⟩) "play/search" "xml" true
      = (.ok .noneVal, 1) :=
  request_unknown_expect_returns_none ⟨emptySoup, none⟩ "play/search" "xml"
    true true (Or.inr rfl) (by decide) (by decide) (by decide)

/-- C5: when the fetched login page already shows the requested username
as logged in, `login` sets the flag and returns after the single
login-page GET: no POST, no further HTTP call, session object (and thus
the site identity) untouched. -/
theorem login_idempotent_same_user :
    ∀ (st : GState) (w : LoginWorld) (u p : String) (res : Response),
      u ≠ "" → p ≠ "" →
      w.getTransport = .ok res →
      res.soupDoc.loggedUser = some u →
      login st w u p
        = ({ st with logged_in := true },
           [LoginAction.httpGet login_page_url], .ok ()) := by
  intro st w u p res hu hp hget hlog
  simp [login, hu, hp, loginCore, request, hget, get_logged_user, hlog]

/-- Witness for C5: re-login as the already-active user `alice` performs
exactly one GET and flips only the flag. -/
theorem login_idempotent_same_user_witness :
    login initState
      { credentials := .ok ("alice", "pw")
        getTransport := .ok ⟨{ emptySoup with loggedUser := some "alice" }, none⟩
        postTransport := .ok ⟨emptySoup, none⟩ }
      "alice" "secret"
      = ({ initState with logged_in := true },
         [LoginAction.httpGet login_page_url], .ok ()) :=
  login_idempotent_same_user initState
    { credentials := .ok ("alice", "pw")
      getTransport := .ok ⟨{ emptySoup with loggedUser := some "alice" }, none⟩
      postTransport := .ok ⟨emptySoup, none⟩ }
    "alice" "secret" ⟨{ emptySoup with loggedUser := some "alice" }, none⟩
    (by decide) (by decide) rfl rfl

/-- C6: when the fetched login page shows a logged-in identity different
from the requested username, exactly one logout happens between the
login-page GET and the login POST: the action trace starts
`GET, logout, POST`. -/
theorem login_different_user_one_logout :
    ∀ (st : GState) (w : LoginWorld) (u p : String) (res : Response) (v : String),
      u ≠ "" → p ≠ "" →
      w.getTransport = .ok res →
      res.soupDoc.loggedUser = some v →
      v ≠ u →
      ∃ rest, (login st w u p).2.1
        = [LoginAction.httpGet login_page_url, LoginAction.logoutAct,
           LoginAction.httpPost login_page_url (assemblePost res.soupDoc u p)]
          ++ rest := by
  intro st w u p res v hu hp hget hlog hne
  cases hpost : w.postTransport with
  | exn e =>
      exact ⟨[], by
        simp [login, hu, hp, loginCore, request, hget, get_logged_user, hlog, hne,
          loginPost, hpost]⟩
  | ok res2 =>
      cases hlog2 : res2.soupDoc.loggedUser with
      | some s =>
          exact ⟨[], by
            simp [login, hu, hp, loginCore, request, hget, get_logged_user, hlog,
              hne, loginPost, hpost, hlog2]⟩
      | none =>
          exact ⟨[LoginAction.logoutAct], by
            simp [login, hu, hp, loginCore, request, hget, get_logged_user, hlog,
              hne, loginPost, hpost, hlog2]⟩

/-- Witness for C6: logging in as `alice` while `bob` is active yields a
trace beginning `GET, logout, POST`. -/
theorem login_different_user_one_logout_witness :
    ∃ rest, (login initState
      { credentials := .ok ("alice", "pw")
        getTransport := .ok ⟨{ emptySoup with loggedUser := some "bob" }, none⟩
        postTransport := .ok ⟨emptySoup, none⟩ }
      "alice" "secret").2.1
      = [LoginAction.httpGet login_page_url, LoginAction.logoutAct,
         LoginAction.httpPost login_page_url
           (assemblePost { emptySoup with loggedUser := some "bob" } "alice" "secret")]
        ++ rest :=
  login_different_user_one_logout initState
    { credentials := .ok ("alice", "pw")
      getTransport := .ok ⟨{ emptySoup with loggedUser := some "bob" }, none⟩
      postTransport := .ok ⟨emptySoup, none⟩ }
    "alice" "secret" ⟨{ emptySoup with loggedUser := some "bob" }, none⟩ "bob"
    (by decide) (by decide) rfl rfl (by decide)

/-- C7: after the login POST (reached because the login page showed no
identity, or a different one), the controller re-checks the response
page: no identity there forces a logout (flag cleared, session replaced
by a fresh one, the trace ending in a logout) and raises
`LoginFailedException`; an identity present makes it transition to
logged-in and return successfully. -/
theorem login_post_result_check :
    ∀ (st : GState) (w : LoginWorld) (u p : String) (res res2 : Response),
      u ≠ "" → p ≠ "" →
      w.getTransport = .ok res →
      (∀ s, res.soupDoc.loggedUser = some s → s ≠ u) →
      w.postTransport = .ok res2 →
      (res2.soupDoc.loggedUser = none →
        (login st w u p).2.2
          = .error (.loginFailed
              "Cannot login to the site (probably wrong username or password).")
        ∧ (login st w u p).1.logged_in = false
        ∧ st.session < (login st w u p).1.session
        ∧ ∃ tr, (login st w u p).2.1 = tr ++ [LoginAction.logoutAct])
      ∧ (∀ s, res2.soupDoc.loggedUser = some s →
        (login st w u p).2.2 = .ok ()
        ∧ (login st w u p).1.logged_in = true) := by
  intro st w u p res res2 hu hp hget hdiff hpost
  cases hlog : res.soupDoc.loggedUser with
  | some v =>
      have hne : v ≠ u := hdiff v hlog
      constructor
      · intro hlog2
        refine ⟨?_, ?_, ?_, ⟨[LoginAction.httpGet login_page_url,
          LoginAction.logoutAct,
          LoginAction.httpPost login_page_url (assemblePost res.soupDoc u p)], ?_⟩⟩
          <;> simp [login, hu, hp, loginCore, request, hget, get_logged_user, hlog,
            hne, loginPost, hpost, hlog2, logout]
        omega
      · intro s hlog2
        constructor <;> simp [login, hu, hp, loginCore, request, hget,
          get_logged_user, hlog, hne, loginPost, hpost, hlog2]
  | none =>
      constructor
      · intro hlog2
        refine ⟨?_, ?_, ?_, ⟨[LoginAction.httpGet login_page_url,
          LoginAction.httpPost login_page_url (assemblePost res.soupDoc u p)], ?_⟩⟩
          <;> simp [login, hu, hp, loginCore, request, hget, get_logged_user, hlog,
            loginPost, hpost, hlog2, logout]
      · intro s hlog2
        constructor <;> simp [login, hu, hp, loginCore, request, hget,
          get_logged_user, hlog, loginPost, hpost, hlog2]

/-- Witness for C7: a rejected POST (no identity on the response page)
raises `LoginFailedException`, leaves the controller logged out with a
fresh session, and ends the trace with a logout. -/
theorem login_post_result_check_witness :
    (login initState
      { credentials := .ok ("alice", "pw")
        getTransport := .ok ⟨emptySoup, none⟩
        postTransport := .ok ⟨emptySoup, none⟩ }
      "alice" "secret").2.2
      = .error (.loginFailed
          "Cannot login to the site (probably wrong username or password).")
    ∧ (login initState
      { credentials := .ok ("alice", "pw")
        getTransport := .ok ⟨emptySoup, none⟩
        postTransport := .ok ⟨emptySoup, none⟩ }
      "alice" "secret").1.logged_in = false
    ∧ initState.session < (login initState
      { credentials := .ok ("alice", "pw")
        getTransport := .ok ⟨emptySoup, none⟩
        postTransport := .ok ⟨emptySoup, none⟩ }
      "alice" "secret").1.session
    ∧ ∃ tr, (login initState
      { credentials := .ok ("alice", "pw")
        getTransport := .ok ⟨emptySoup, none⟩
        postTransport := .ok ⟨emptySoup, none⟩ }
      "alice" "secret").2.1 = tr ++ [LoginAction.logoutAct] :=
  (login_post_result_check initState
    { credentials := .ok ("alice", "pw")
      getTransport := .ok ⟨emptySoup, none⟩
      postTransport := .ok ⟨emptySoup, none⟩ }
    "alice" "secret" ⟨emptySoup, none⟩ ⟨emptySoup, none⟩
    (by decide) (by decide) rfl (fun s hs => by simp [emptySoup] at hs) rfl).1 rfl

/-- C8: a row carrying the PM-only marker is yielded immediately as an
entity with exactly waypoint, type, name, found, favorites, state and
pm_only populated — size, difficulty, terrain, hidden and author stay
unset — and the result does not depend on the five detail columns of the
row, which are never read. -/
theorem pm_only_row_frame :
    ∀ (row : Row) (t w : String) (restSeg : List String),
      row.pmUpsell = true →
      pySplit row.cacheDetails '|' = t :: w :: restSeg →
      parseRow row
        = .ok { wp := pyStrip w
                type := some (typeFromString (pyStrip t))
                name := some row.name
                found := some row.foundImg
                favorites := some row.favorites
                state := some (!row.disabled)
                pm_only := some true }
      ∧ ∀ (d1 : Option String) (d2 d3 : Option ℚ) (d4 : Option String)
          (d5 : Option String),
          parseRow { row with sizeData := d1, difficultyData := d2,
                              terrainData := d3, hiddenData := d4,
                              ownerText := d5 }
            = parseRow row := by
  intro row t w restSeg hpm hsplit
  constructor
  · simp [parseRow, hsplit, hpm, Bind.bind, Except.bind, Pure.pure, Except.pure]
  · intro d1 d2 d3 d4 d5
    simp [parseRow, hsplit, hpm, Bind.bind, Except.bind, Pure.pure, Except.pure]

/-- Witness for C8: a concrete PM-only row parses to the partially filled
entity regardless of its (here absent) detail columns. -/
theorem pm_only_row_frame_witness :
    parseRow
      { cacheDetails := "Traditional Geocache | GC2WXPN |"
        name := "Hidden Gem"
        foundImg := false
        favorites := 7
        disabled := false
        pmUpsell := true
        sizeData := none
        difficultyData := none
        terrainData := none
        hiddenData := none
        ownerText := none }
      = .ok { wp := pyStrip " GC2WXPN "
              type := some (typeFromString (pyStrip "Traditional Geocache "))
              name := some "Hidden Gem"
              found := some false
              favorites := some 7
              state := some true
              pm_only := some true } :=
  (pm_only_row_frame
    { cacheDetails := "Traditional Geocache | GC2WXPN |"
      name := "Hidden Gem"
      foundImg := false
      favorites := 7
      disabled := false
      pmUpsell := true
      sizeData := none
      difficultyData := none
      terrainData := none
      hiddenData := none
      ownerText := none }
    "Traditional Geocache " " GC2WXPN " [""] rfl rfl).1

/-- A sample area for the quick-search witness: the right half-plane. -/
def sampleArea : Area := ⟨fun loc => decide (0 ≤ loc.1)⟩

/-- Sample tiles whose data over-covers `sampleArea`: one block inside,
one outside. -/
def sampleTiles : List Tile :=
  [⟨[⟨"GCIN", (1, 0)⟩, ⟨"GCOUT", (-1, 0)⟩]⟩]

/-- C9: `search_quick` with `strict = true` never yields an entity whose
location lies outside the supplied area, even when the tile data included
it; with `strict = false` every entity constructed from every block of
every tile is yielded. -/
theorem search_quick_strict_geofence :
    ∀ (area : Area) (tiles : List Tile),
      (∀ c ∈ search_quick area true tiles,
        ∃ loc, c.location = some loc ∧ area.contains loc = true)
      ∧ search_quick area false tiles
        = tiles.flatMap fun tile => tile.blocks.map cacheFromBlock := by
  intro area tiles
  constructor
  · intro c hc
    simp only [search_quick, List.mem_flatMap, List.mem_filterMap] at hc
    obtain ⟨tile, _, block, _, hkeep⟩ := hc
    by_cases hin : locationNotInArea area (cacheFromBlock block)
    · simp [hin] at hkeep
    · simp [hin] at hkeep
      subst hkeep
      simp [locationNotInArea, cacheFromBlock] at hin ⊢
      exact hin
  · simp only [search_quick, Bool.false_and, Bool.false_eq_true, if_neg,
      ite_false]
    congr 1
    funext tile
    induction tile.blocks with
    | nil => rfl
    | cons b bs ih => simp [List.filterMap_cons, List.map_cons, ih]

/-- Witness for C9: the strictly filtered result of the sample tiles
contains only the in-area entity, whose membership is certified and whose
location the theorem bounds to the area. -/
theorem search_quick_strict_geofence_witness :
    ∃ loc, (cacheFromBlock ⟨"GCIN", (1, 0)⟩).location = some loc
      ∧ sampleArea.contains loc = true :=
  (search_quick_strict_geofence sampleArea sampleTiles).1
    (cacheFromBlock ⟨"GCIN", (1, 0)⟩)
    (by simp [search_quick, sampleTiles, sampleArea, cacheFromBlock,
      locationNotInArea])

/-- A well-formed sample search-result row. -/
def sampleRow : Row :=
  { cacheDetails := "Traditional Geocache | GC2WXPN |"
    name := "Sample"
    foundImg := false
    favorites := 5
    disabled := false
    pmUpsell := false
    sizeData := some "micro"
    difficultyData := some 2
    terrainData := some 3
    hiddenData := some "2014-01-02"
    ownerText := some "by Alice" }

/-- The entity the pager yields for `sampleRow`. -/
def sampleCache : Cache :=
  { wp := "GC2WXPN"
    type := some "Traditional Geocache"
    name := some "Sample"
    found := some false
    favorites := some 5
    state := some true
    pm_only := some false
    size := some "micro"
    difficulty := some 2
    terrain := some 3
    hidden := some "2014-01-02"
    author := some "Alice" }

/-- C1: whenever the page fetched at the current cursor is empty or
absent, the `search` stream ends as a natural end of results — no
exception reaches the caller; concretely, over a two-page world whose
first page holds 20 rows and whose second page is empty, `search` with
no limit yields exactly the 20 entities and stops cleanly after the two
fetches. -/
theorem search_empty_page_ends_stream :
    (∀ (pages : Nat → Option (List Row)) (lim : Limit) (start fuel : Nat),
      pages start = none →
      searchLoop true (worldOfPages pages) lim start (fuel + 1)
        = ⟨[], 1, .done⟩)
    ∧ search true
        (worldOfPages fun i =>
          if i = 0 then some (List.replicate 20 sampleRow) else none)
        .inf 2
      = ⟨List.replicate 20 sampleCache, 2, .done⟩ := by
  constructor
  · intro pages lim start fuel hnone
    by_cases h0 : start = 0
    · subst h0
      simp [searchLoop, _search_get_page, request, worldOfPages, hnone]
    · simp [searchLoop, _search_get_page, request, worldOfPages, hnone, h0]
  · rfl

/-- Witness for C1: an immediately empty world ends the stream at once,
cleanly, after its single fetch. -/
theorem search_empty_page_ends_stream_witness :
    searchLoop true (worldOfPages fun _ => none) .inf 0 1 = ⟨[], 1, .done⟩ :=
  search_empty_page_ends_stream.1 (fun _ => none) .inf 0 0 rfl

/-- Counterexample to C2 as stated: over the page sequence whose first
page is a truthy fragment with zero rows and whose second page is empty,
`search` with `limit = 0` performs two page fetches, not exactly one — a
rowless page never reaches the per-row limit check, so the pager
advances `start_index` and fetches again. -/
theorem search_limit_zero_two_fetches_counterexample :
    search true (worldOfPages fun i => if i = 0 then some [] else none)
      (.fin 0) 3
      = ⟨[], 2, .done⟩ ∧ (2 : Nat) ≠ 1 :=
  ⟨rfl, by decide⟩

/-- The row loop of `search` stops mid-page exactly after `N` yields when
the limit is `N` and the page holds more than `N` rows, the first `N`
parsing successfully. -/
theorem processRows_limit_stop (g : Row → Cache) :
    ∀ (rows : List Row) (N : Nat), N < rows.length →
      (∀ r ∈ rows.take N, parseRow r = .ok (g r)) →
      processRows rows (.fin N) = .stop ((rows.take N).map g) := by
  intro rows
  induction rows with
  | nil =>
      intro N hlt _
      simp at hlt
  | cons row rest ih =>
      intro N hlt hok
      cases N with
      | zero =>
          simp [processRows, Limit.dec, Limit.isNeg]
      | succ k =>
          have hcast : ((k + 1 : Nat) : Int) - 1 = (k : Int) := by push_cast; ring
          have hneg : ¬((k : Nat) : Int) < 0 := by omega
          have h1 : parseRow row = .ok (g row) := hok row (by simp)
          have hrec := ih k (by simpa using hlt)
            (fun r hr => hok r (by simp [hr]))
          simp [processRows, Limit.dec, hcast, Limit.isNeg, hneg, h1, hrec]

/-- C2 (amended): with `limit = 0`, `search` yields zero entities after
exactly one page fetch provided the first fetched page is empty/absent
or contains at least one row (a rowless page does not consume the limit
and triggers another fetch); and with `limit = N` over a first page of
`M > N` rows whose first `N` parse, it yields exactly the first `N`
entities in document order and fetches no continuation page, stopping
mid-page as soon as the decremented limit goes negative. -/
theorem search_limit_semantics :
    (∀ (pages : Nat → Option (List Row)) (fuel : Nat),
      (pages 0 = none ∨ ∃ r rs, pages 0 = some (r :: rs)) →
      search true (worldOfPages pages) (.fin 0) (fuel + 1) = ⟨[], 1, .done⟩)
    ∧ (∀ (pages : Nat → Option (List Row)) (rows : List Row) (N : Nat)
        (g : Row → Cache) (fuel : Nat),
      pages 0 = some rows →
      N < rows.length →
      (∀ r ∈ rows.take N, parseRow r = .ok (g r)) →
      search true (worldOfPages pages) (.fin N) (fuel + 1)
        = ⟨(rows.take N).map g, 1, .done⟩) := by
  constructor
  · intro pages fuel hfirst
    rcases hfirst with hnone | ⟨r, rs, hsome⟩
    · simp [search, searchLoop, _search_get_page, request, worldOfPages, hnone]
    · simp [search, searchLoop, _search_get_page, request, worldOfPages, hsome,
        processRows, Limit.dec, Limit.isNeg]
  · intro pages rows N g fuel hsome hlt hok
    have hstop := processRows_limit_stop g rows N hlt hok
    simp [search, searchLoop, _search_get_page, request, worldOfPages, hsome,
      hstop]

/-- Witness for C2 (amended): a world whose only page is empty ends a
`limit = 0` run after one fetch with nothing yielded, and a `limit = 1`
run over a first page of two parseable rows yields exactly the first
entity in one fetch. -/
theorem search_limit_semantics_witness :
    search true (worldOfPages fun _ => none) (.fin 0) 1 = ⟨[], 1, .done⟩
    ∧ search true
        (worldOfPages fun i =>
          if i = 0 then some [sampleRow, sampleRow] else none)
        (.fin 1) 1
      = ⟨([sampleRow, sampleRow].take 1).map fun _ => sampleCache, 1, .done⟩ :=
  ⟨search_limit_semantics.1 (fun _ => none) 0 (Or.inl rfl),
    search_limit_semantics.2
      (fun i => if i = 0 then some [sampleRow, sampleRow] else none)
      [sampleRow, sampleRow] 1 (fun _ => sampleCache) 0 rfl (by decide)
      (fun r hr => by
        simp at hr
        subst hr
        rfl)⟩
